import Mathlib

/-!
Shallow embedding of the La Liga Tracker service (`src/main.go`, the variant
serving the documented API: `getMatches`, `getMatch`, `fetchEvents`,
`isValidTimeFormat`, `createMatch`, `updateMatch`, `deleteMatch`,
`registerEvent`, `setExtraTime`) together with its SQLite schema
(`src/database/init.sql`).

The SQLite store is modelled as four lists of rows (one per table) plus the
AUTOINCREMENT counters.  SQL statements are translated to list operations:
`SELECT ... WHERE id = ?` on the primary key becomes `List.find?`,
`SELECT COUNT(*) ... WHERE match_id = ? AND team = ?` becomes the length of a
`List.filter`, `INSERT` appends a row with the next counter value, `UPDATE`
maps over the rows, `DELETE` filters them out.  Storage failures (unreachable
database) are not modelled, except for the event-list queries in `getMatch`,
whose Go code explicitly swallows a query error and substitutes an empty
slice: those get an explicit failure flag (`EventQueryFailures`).
-/

namespace LaLiga

/-- Row of the `matches` table (and the Go `Match` struct): `id`,
`home_team`, `away_team`, `match_date`, `extra_time`. -/
structure Match where
  id : Nat
  homeTeam : String
  awayTeam : String
  matchDate : String
  extraTime : String
deriving DecidableEq, Repr

/-- Row of an event table (`goals`, `yellow_cards`, `red_cards`):
`id`, `match_id`, `team`, `player`, `minute`. -/
structure EventRow where
  id : Nat
  matchId : Nat
  team : String
  player : String
  minute : String
deriving DecidableEq, Repr

/-- The Go `MatchEvent` struct returned by `fetchEvents`
(`SELECT id, team, player, minute`): the row without its `match_id`. -/
structure MatchEvent where
  id : Nat
  team : String
  player : String
  minute : String
deriving DecidableEq, Repr

/-- Projection performed by the `SELECT id, team, player, minute` of
`fetchEvents`. -/
def projEvent (e : EventRow) : MatchEvent :=
  ⟨e.id, e.team, e.player, e.minute⟩

/-- The Go `FullMatchData` struct: a match enriched with the six per-team
aggregate counts and the three event lists. -/
structure FullMatchData where
  id : Nat
  homeTeam : String
  awayTeam : String
  matchDate : String
  extraTime : String
  homeGoals : Nat
  awayGoals : Nat
  homeYellowCardsCount : Nat
  awayYellowCardsCount : Nat
  homeRedCardsCount : Nat
  awayRedCardsCount : Nat
  goals : List MatchEvent
  yellowCards : List MatchEvent
  redCards : List MatchEvent
deriving DecidableEq, Repr

/-- The decoded JSON body of a create/update request.  The Go code decodes
into `Match`; the decoded `id` is overwritten in every code path (by
`LastInsertId` in `createMatch`, by the URL id in `updateMatch`), so it is
omitted here. -/
structure MatchInput where
  homeTeam : String
  awayTeam : String
  matchDate : String
  extraTime : String
deriving DecidableEq, Repr

/-- The Go `EventPayload` struct: `team`, `player`, `minute`. -/
structure EventPayload where
  team : String
  player : String
  minute : String
deriving DecidableEq, Repr

/-- The whole SQLite database: the four tables and their AUTOINCREMENT
counters (SQLite assigns ids starting from 1). -/
structure Store where
  matchRows : List Match
  goals : List EventRow
  yellowCards : List EventRow
  redCards : List EventRow
  nextMatchId : Nat
  nextGoalId : Nat
  nextYellowId : Nat
  nextRedId : Nat
deriving DecidableEq, Repr

deriving instance DecidableEq for Except

/-- The error taxonomy of the service: 400, 404, 500. -/
inductive ApiError where
  | ValidationError
  | NotFound
  | StorageError
deriving DecidableEq, Repr

/-- Which of the three event tables a `registerEvent` call targets
(the Go code selects the table by its name string). -/
inductive EventKind where
  | goal
  | yellow
  | red
deriving DecidableEq, Repr

/-- The regex character class `[0-9]`: code points of `'0'`..`'9'`. -/
def isDigitChar (c : Char) : Bool :=
  decide (48 ≤ c.toNat ∧ c.toNat ≤ 57)

/-- The regex character class `[0-5]`: code points of `'0'`..`'5'`. -/
def isSecTens (c : Char) : Bool :=
  decide (48 ≤ c.toNat ∧ c.toNat ≤ 53)

/-- `isValidTimeFormat` from `main.go`: anchored regex
`[0-9]\x7b1,2\x7d:[0-5][0-9]` over the whole string.  The regex matches
exactly the strings of four characters `digit ':' [0-5] digit` and of five
characters `digit digit ':' [0-5] digit`, which is what the pattern match
below says. -/
def isValidTimeFormat (extraTime : String) : Bool :=
  match extraTime.data with
  | [a, c, b1, b2] =>
      isDigitChar a && (c == ':') && isSecTens b1 && isDigitChar b2
  | [a1, a2, c, b1, b2] =>
      isDigitChar a1 && isDigitChar a2 && (c == ':') && isSecTens b1 &&
        isDigitChar b2
  | _ => false

/-- Numeric value of a digit character. -/
def charVal (c : Char) : Nat := c.toNat - 48

/-- The spec's wording of the time-format rule: the string is `MM:SS` where
`MM` is one or two digits and `SS` is exactly two digits whose two-digit
value is at most 59. -/
def SpecTimeFormat (s : String) : Prop :=
  ∃ (mm : List Char) (b1 b2 : Char),
    s.data = mm ++ ':' :: [b1, b2] ∧
    (mm.length = 1 ∨ mm.length = 2) ∧
    (∀ c ∈ mm, isDigitChar c = true) ∧
    isDigitChar b1 = true ∧ isDigitChar b2 = true ∧
    10 * charVal b1 + charVal b2 ≤ 59

/-- `SELECT ... FROM matches WHERE id = ?`: `id` is the primary key, so the
query returns the (first) row with that id, if any. -/
def findMatch (s : Store) (id : Nat) : Option Match :=
  s.matchRows.find? (fun m => m.id == id)

/-- `SELECT COUNT(*) FROM <events> WHERE match_id = ? AND team = ?`. -/
def countEvents (events : List EventRow) (matchId : Nat) (team : String) :
    Nat :=
  (events.filter (fun e => e.matchId == matchId && e.team == team)).length

/-- `fetchEvents` from `main.go`: `SELECT id, team, player, minute FROM
<table> WHERE match_id = ?`.  When the query itself errors the Go code
returns the empty slice instead of propagating the error; `queryFailed`
makes that branch explicit. -/
def fetchEvents (queryFailed : Bool) (table : List EventRow)
    (matchID : Nat) : List MatchEvent :=
  if queryFailed then []
  else (table.filter (fun e => e.matchId == matchID)).map projEvent

/-- Failure flags for the three event-list queries issued by `getMatch`
(`true` = that `db.Query` call returns an error). -/
structure EventQueryFailures where
  goalsFail : Bool
  yellowFail : Bool
  redFail : Bool
deriving DecidableEq, Repr

/-- All three event-list queries succeed. -/
def noFailures : EventQueryFailures := ⟨false, false, false⟩

/-- `getMatch` from `main.go`, parameterised by the outcome of its three
event-list queries: look the match up by id (404 when absent), compute the
six per-team counts, and attach the three event lists via `fetchEvents`. -/
def getMatchWith (q : EventQueryFailures) (s : Store) (id : Nat) :
    Except ApiError FullMatchData :=
  match findMatch s id with
  | none => .error .NotFound
  | some m =>
      .ok { id := m.id
            homeTeam := m.homeTeam
            awayTeam := m.awayTeam
            matchDate := m.matchDate
            extraTime := m.extraTime
            homeGoals := countEvents s.goals id m.homeTeam
            awayGoals := countEvents s.goals id m.awayTeam
            homeYellowCardsCount := countEvents s.yellowCards id m.homeTeam
            awayYellowCardsCount := countEvents s.yellowCards id m.awayTeam
            homeRedCardsCount := countEvents s.redCards id m.homeTeam
            awayRedCardsCount := countEvents s.redCards id m.awayTeam
            goals := fetchEvents q.goalsFail s.goals id
            yellowCards := fetchEvents q.yellowFail s.yellowCards id
            redCards := fetchEvents q.redFail s.redCards id }

/-- `getMatch` in the run where every query succeeds. -/
def getMatch (s : Store) (id : Nat) : Except ApiError FullMatchData :=
  getMatchWith noFailures s id

/-- The per-row enrichment performed inside the loop of `getMatches`: the
same six `COUNT(*)` queries as `getMatch`, but no `fetchEvents` calls, so
the three event lists stay at their zero value (the nil slice). -/
def enrichMatch (s : Store) (m : Match) : FullMatchData :=
  { id := m.id
    homeTeam := m.homeTeam
    awayTeam := m.awayTeam
    matchDate := m.matchDate
    extraTime := m.extraTime
    homeGoals := countEvents s.goals m.id m.homeTeam
    awayGoals := countEvents s.goals m.id m.awayTeam
    homeYellowCardsCount := countEvents s.yellowCards m.id m.homeTeam
    awayYellowCardsCount := countEvents s.yellowCards m.id m.awayTeam
    homeRedCardsCount := countEvents s.redCards m.id m.homeTeam
    awayRedCardsCount := countEvents s.redCards m.id m.awayTeam
    goals := []
    yellowCards := []
    redCards := [] }

/-- `getMatches` from `main.go`: `SELECT ... FROM matches`, enriching each
row with the six aggregate counts. -/
def getMatches (s : Store) : List FullMatchData :=
  s.matchRows.map (enrichMatch s)

/-- `createMatch` from `main.go`: reject when any of the three required
fields is empty; otherwise `INSERT INTO matches (home_team, away_team,
match_date)` — the omitted `extra_time` column takes the schema default
`'00:00'` — and respond with the decoded body carrying the new id and
`ExtraTime` set to `"00:00"`. -/
def createMatch (s : Store) (p : MatchInput) :
    Except ApiError (Store × Match) :=
  if p.homeTeam == "" || p.awayTeam == "" || p.matchDate == "" then
    .error .ValidationError
  else
    let row : Match :=
      ⟨s.nextMatchId, p.homeTeam, p.awayTeam, p.matchDate, "00:00"⟩
    .ok ({ s with matchRows := s.matchRows ++ [row]
                  nextMatchId := s.nextMatchId + 1 },
         row)

/-- The effect of `UPDATE matches SET home_team=?, away_team=?,
match_date=? WHERE id=?` on one row. -/
def applyUpdate (p : MatchInput) (id : Nat) (m : Match) : Match :=
  if m.id == id then
    { m with homeTeam := p.homeTeam
             awayTeam := p.awayTeam
             matchDate := p.matchDate }
  else m

/-- `updateMatch` from `main.go`: reject when any required field is empty;
otherwise run the `UPDATE` (touching only the three named columns of rows
whose id matches — a no-op when none does) and respond with the decoded
body carrying the URL id. -/
def updateMatch (s : Store) (id : Nat) (p : MatchInput) :
    Except ApiError (Store × Match) :=
  if p.homeTeam == "" || p.awayTeam == "" || p.matchDate == "" then
    .error .ValidationError
  else
    .ok ({ s with matchRows := s.matchRows.map (applyUpdate p id) },
         ⟨id, p.homeTeam, p.awayTeam, p.matchDate, p.extraTime⟩)

/-- `deleteMatch` from `main.go`: `DELETE FROM matches WHERE id=?`, then
respond 204 unconditionally (also when no row matched); events are not
cascaded.  The only failure path is a storage error, which is not
modelled, so the operation is total. -/
def deleteMatch (s : Store) (id : Nat) : Store :=
  { s with matchRows := s.matchRows.filter (fun m => !(m.id == id)) }

/-- AUTOINCREMENT counter of the event table selected by `kind`. -/
def nextEventId (s : Store) : EventKind → Nat
  | .goal => s.nextGoalId
  | .yellow => s.nextYellowId
  | .red => s.nextRedId

/-- `INSERT INTO <kind> (match_id, team, player, minute) VALUES (?,?,?,?)`:
append the row to the selected table and bump its counter. -/
def insertEvent (s : Store) (kind : EventKind) (row : EventRow) : Store :=
  match kind with
  | .goal => { s with goals := s.goals ++ [row]
                      nextGoalId := s.nextGoalId + 1 }
  | .yellow => { s with yellowCards := s.yellowCards ++ [row]
                        nextYellowId := s.nextYellowId + 1 }
  | .red => { s with redCards := s.redCards ++ [row]
                     nextRedId := s.nextRedId + 1 }

/-- The success message `registerEvent` responds with, selected by table. -/
def eventMessage : EventKind → String
  | .goal => "Gol registrado correctamente"
  | .yellow => "Tarjeta amarilla registrada correctamente"
  | .red => "Tarjeta roja registrada correctamente"

/-- `registerEvent` from `main.go`, in its exact order of checks:
empty-field validation, minute-format validation, match lookup (404 when
absent), team-membership validation against the stored team names, then
the insert. -/
def registerEvent (s : Store) (id : Nat) (kind : EventKind)
    (p : EventPayload) : Except ApiError (Store × String) :=
  if p.team == "" || p.player == "" || p.minute == "" then
    .error .ValidationError
  else if !isValidTimeFormat p.minute then
    .error .ValidationError
  else
    match findMatch s id with
    | none => .error .NotFound
    | some m =>
        if p.team != m.homeTeam && p.team != m.awayTeam then
          .error .ValidationError
        else
          let row : EventRow :=
            ⟨nextEventId s kind, id, p.team, p.player, p.minute⟩
          .ok (insertEvent s kind row, eventMessage kind)

/-- `setExtraTime` from `main.go`: reject an empty value with 400, then
check the match exists (404), then validate the time format (400), then
`UPDATE matches SET extra_time=? WHERE id=?`. -/
def setExtraTime (s : Store) (id : Nat) (value : String) :
    Except ApiError (Store × String) :=
  if value == "" then .error .ValidationError
  else
    match findMatch s id with
    | none => .error .NotFound
    | some _ =>
        if !isValidTimeFormat value then .error .ValidationError
        else
          let rows := s.matchRows.map fun m =>
            if m.id == id then { m with extraTime := value } else m
          .ok ({ s with matchRows := rows },
               "Tiempo extra actualizado correctamente")

/-- Well-formedness maintained by the schema's AUTOINCREMENT columns:
every stored match id, and every match id an event row references, is
below the next id the `matches` table will assign. -/
def wf (s : Store) : Bool :=
  s.matchRows.all (fun m => m.id < s.nextMatchId) &&
  s.goals.all (fun e => e.matchId < s.nextMatchId) &&
  s.yellowCards.all (fun e => e.matchId < s.nextMatchId) &&
  s.redCards.all (fun e => e.matchId < s.nextMatchId)

/-- No two stored matches share an id (the `id INTEGER PRIMARY KEY`
constraint of the `matches` table). -/
def uniqueIds : List Match → Bool
  | [] => true
  | m :: rest => rest.all (fun m2 => m2.id != m.id) && uniqueIds rest

/-- The database right after `init.sql` created the four empty tables
(no sample data): AUTOINCREMENT counters start at 1. -/
def emptyStore : Store := ⟨[], [], [], [], 1, 1, 1, 1⟩

theorem isDigitChar_iff (c : Char) :
    isDigitChar c = true ↔ 48 ≤ c.toNat ∧ c.toNat ≤ 57 := by
  simp [isDigitChar]

theorem isSecTens_iff (c : Char) :
    isSecTens c = true ↔ 48 ≤ c.toNat ∧ c.toNat ≤ 53 := by
  simp [isSecTens]

theorem isValidTimeFormat_iff_spec (s : String) :
    isValidTimeFormat s = true ↔ SpecTimeFormat s := by
  unfold isValidTimeFormat SpecTimeFormat
  rcases hd : s.data with _ | ⟨a, _ | ⟨b, _ | ⟨c, _ | ⟨d, _ | ⟨e, _ | ⟨f, rest⟩⟩⟩⟩⟩⟩
  · constructor
    · intro h
      simp at h
    · rintro ⟨mm, b1, b2, h, hlen, -⟩
      have hl := congrArg List.length h
      simp only [List.length_cons, List.length_append, List.length_nil] at hl
      omega
  · constructor
    · intro h
      simp at h
    · rintro ⟨mm, b1, b2, h, hlen, -⟩
      have hl := congrArg List.length h
      simp only [List.length_cons, List.length_append, List.length_nil] at hl
      omega
  · constructor
    · intro h
      simp at h
    · rintro ⟨mm, b1, b2, h, hlen, -⟩
      have hl := congrArg List.length h
      simp only [List.length_cons, List.length_append, List.length_nil] at hl
      omega
  · constructor
    · intro h
      simp at h
    · rintro ⟨mm, b1, b2, h, hlen, -⟩
      have hl := congrArg List.length h
      simp only [List.length_cons, List.length_append, List.length_nil] at hl
      rcases hlen with hlen | hlen <;> omega
  · -- four characters: the regex matches iff they read `digit ':' [0-5] digit`
    constructor
    · intro h
      simp only [Bool.and_eq_true, beq_iff_eq] at h
      obtain ⟨⟨⟨ha, hb⟩, hc⟩, hdd⟩ := h
      subst hb
      refine ⟨[a], c, d, rfl, Or.inl rfl, ?_, ?_, hdd, ?_⟩
      · intro x hx
        simp at hx
        subst hx
        exact ha
      · rw [isSecTens_iff] at hc
        rw [isDigitChar_iff]
        omega
      · rw [isSecTens_iff] at hc
        rw [isDigitChar_iff] at hdd
        unfold charVal
        omega
    · rintro ⟨mm, b1, b2, h, hlen, hmm, hb1, hb2, hval⟩
      rcases mm with _ | ⟨x, _ | ⟨y, rest2⟩⟩
      · have hl := congrArg List.length h
        simp only [List.length_cons, List.length_append, List.length_nil] at hl
        omega
      · simp only [List.cons_append, List.nil_append, List.cons.injEq,
          and_true] at h
        obtain ⟨h1, h2, h3, h4⟩ := h
        have hxa : isDigitChar a = true := by
          rw [h1]
          exact hmm x (by simp)
        have hsc : isSecTens c = true := by
          rw [h3, isSecTens_iff]
          rw [isDigitChar_iff] at hb1
          unfold charVal at hval
          omega
        have hd2 : isDigitChar d = true := by
          rw [h4]
          exact hb2
        simp [hxa, hsc, hd2, h2]
      · have hl := congrArg List.length h
        simp only [List.length_cons, List.length_append, List.length_nil] at hl
        omega
  · -- five characters: the regex matches iff they read
    -- `digit digit ':' [0-5] digit`
    constructor
    · intro h
      simp only [Bool.and_eq_true, beq_iff_eq] at h
      obtain ⟨⟨⟨⟨ha, ha2⟩, hb⟩, hc⟩, hdd⟩ := h
      subst hb
      refine ⟨[a, b], d, e, rfl, Or.inr rfl, ?_, ?_, hdd, ?_⟩
      · intro x hx
        simp at hx
        rcases hx with rfl | rfl
        · exact ha
        · exact ha2
      · rw [isSecTens_iff] at hc
        rw [isDigitChar_iff]
        omega
      · rw [isSecTens_iff] at hc
        rw [isDigitChar_iff] at hdd
        unfold charVal
        omega
    · rintro ⟨mm, b1, b2, h, hlen, hmm, hb1, hb2, hval⟩
      rcases mm with _ | ⟨x, _ | ⟨y, _ | ⟨z, rest2⟩⟩⟩
      · have hl := congrArg List.length h
        simp only [List.length_cons, List.length_append, List.length_nil] at hl
        omega
      · have hl := congrArg List.length h
        simp only [List.length_cons, List.length_append, List.length_nil] at hl
        omega
      · simp only [List.cons_append, List.nil_append, List.cons.injEq,
          and_true] at h
        obtain ⟨h1, h2, h3, h4, h5⟩ := h
        have hxa : isDigitChar a = true := by
          rw [h1]
          exact hmm x (by simp)
        have hyb : isDigitChar b = true := by
          rw [h2]
          exact hmm y (by simp)
        have hsd : isSecTens d = true := by
          rw [h4, isSecTens_iff]
          rw [isDigitChar_iff] at hb1
          unfold charVal at hval
          omega
        have he2 : isDigitChar e = true := by
          rw [h5]
          exact hb2
        simp [hxa, hyb, hsd, he2, h3]
      · have hl := congrArg List.length h
        simp only [List.length_cons, List.length_append, List.length_nil] at hl
        omega
  · constructor
    · intro h
      simp at h
    · rintro ⟨mm, b1, b2, h, hlen, -⟩
      have hl := congrArg List.length h
      simp only [List.length_cons, List.length_append, List.length_nil] at hl
      rcases hlen with hlen | hlen <;> omega

/-! List helpers used throughout: behaviour of `find?` and `filter` under
vacuous or universally true predicates. -/

theorem find?_append_of_none {α : Type} (p : α → Bool) (l1 l2 : List α)
    (h : ∀ a ∈ l1, p a = false) : (l1 ++ l2).find? p = l2.find? p := by
  induction l1 with
  | nil => rfl
  | cons x xs ih =>
      rw [List.cons_append,
        List.find?_cons_of_neg _ (by simp [h x (by simp)])]
      exact ih (fun a ha => h a (by simp [ha]))

theorem filter_eq_nil_of_false {α : Type} (p : α → Bool) (l : List α)
    (h : ∀ a ∈ l, p a = false) : l.filter p = [] := by
  induction l with
  | nil => rfl
  | cons x xs ih =>
      rw [List.filter_cons, h x (by simp)]
      simp only [Bool.false_eq_true, if_false]
      exact ih (fun a ha => h a (by simp [ha]))

theorem filter_eq_self_of_true {α : Type} (p : α → Bool) (l : List α)
    (h : ∀ a ∈ l, p a = true) : l.filter p = l := by
  induction l with
  | nil => rfl
  | cons x xs ih =>
      rw [List.filter_cons, h x (by simp), if_pos rfl]
      rw [ih (fun a ha => h a (by simp [ha]))]

theorem map_eq_self_of_id {α : Type} (f : α → α) (l : List α)
    (h : ∀ a ∈ l, f a = a) : l.map f = l := by
  induction l with
  | nil => rfl
  | cons x xs ih =>
      rw [List.map_cons, h x (by simp)]
      rw [ih (fun a ha => h a (by simp [ha]))]

/-! Behaviour lemmas for the operations. -/

theorem filter_sub_nil {α : Type} (p q : α → Bool) (l : List α)
    (h : l.filter q = []) (himp : ∀ a, p a = true → q a = true) :
    l.filter p = [] := by
  apply filter_eq_nil_of_false
  intro a ha
  cases hpa : p a
  · rfl
  · have hmem : a ∈ l.filter q := List.mem_filter.mpr ⟨ha, himp a hpa⟩
    rw [h] at hmem
    simp at hmem

theorem find?_id_of_uniqueIds (l : List Match) (m : Match)
    (hu : uniqueIds l = true) (hm : m ∈ l) :
    l.find? (fun x => x.id == m.id) = some m := by
  induction l with
  | nil => simp at hm
  | cons x xs ih =>
      simp only [uniqueIds, Bool.and_eq_true, List.all_eq_true] at hu
      obtain ⟨hall, hrest⟩ := hu
      rcases List.mem_cons.mp hm with rfl | hm2
      · rw [List.find?_cons_of_pos _ (by simp)]
      · have hne := hall m hm2
        simp only [bne_iff_ne] at hne
        rw [List.find?_cons_of_neg _ (by simp [Ne.symm hne]),
          ih hrest hm2]

theorem createMatch_ok (s : Store) (p : MatchInput)
    (h1 : p.homeTeam ≠ "") (h2 : p.awayTeam ≠ "") (h3 : p.matchDate ≠ "") :
    createMatch s p = .ok
      ({ s with
          matchRows := s.matchRows ++
            [⟨s.nextMatchId, p.homeTeam, p.awayTeam, p.matchDate, "00:00"⟩]
          nextMatchId := s.nextMatchId + 1 },
       ⟨s.nextMatchId, p.homeTeam, p.awayTeam, p.matchDate, "00:00"⟩) := by
  unfold createMatch
  rw [if_neg (by simp [h1, h2, h3])]

theorem createMatch_err (s : Store) (p : MatchInput)
    (h : p.homeTeam = "" ∨ p.awayTeam = "" ∨ p.matchDate = "") :
    createMatch s p = .error .ValidationError := by
  unfold createMatch
  rw [if_pos (by rcases h with h | h | h <;> simp [h])]

theorem updateMatch_err (s : Store) (id : Nat) (p : MatchInput)
    (h : p.homeTeam = "" ∨ p.awayTeam = "" ∨ p.matchDate = "") :
    updateMatch s id p = .error .ValidationError := by
  unfold updateMatch
  rw [if_pos (by rcases h with h | h | h <;> simp [h])]

theorem getMatchWith_eq (q : EventQueryFailures) (s : Store) (id : Nat)
    (m : Match) (h : findMatch s id = some m) :
    getMatchWith q s id = .ok
      { id := m.id
        homeTeam := m.homeTeam
        awayTeam := m.awayTeam
        matchDate := m.matchDate
        extraTime := m.extraTime
        homeGoals := countEvents s.goals id m.homeTeam
        awayGoals := countEvents s.goals id m.awayTeam
        homeYellowCardsCount := countEvents s.yellowCards id m.homeTeam
        awayYellowCardsCount := countEvents s.yellowCards id m.awayTeam
        homeRedCardsCount := countEvents s.redCards id m.homeTeam
        awayRedCardsCount := countEvents s.redCards id m.awayTeam
        goals := fetchEvents q.goalsFail s.goals id
        yellowCards := fetchEvents q.yellowFail s.yellowCards id
        redCards := fetchEvents q.redFail s.redCards id } := by
  unfold getMatchWith
  rw [h]

theorem getMatch_eq (s : Store) (id : Nat) (m : Match)
    (h : findMatch s id = some m) :
    getMatch s id = .ok
      { id := m.id
        homeTeam := m.homeTeam
        awayTeam := m.awayTeam
        matchDate := m.matchDate
        extraTime := m.extraTime
        homeGoals := countEvents s.goals id m.homeTeam
        awayGoals := countEvents s.goals id m.awayTeam
        homeYellowCardsCount := countEvents s.yellowCards id m.homeTeam
        awayYellowCardsCount := countEvents s.yellowCards id m.awayTeam
        homeRedCardsCount := countEvents s.redCards id m.homeTeam
        awayRedCardsCount := countEvents s.redCards id m.awayTeam
        goals := (s.goals.filter (fun e => e.matchId == id)).map projEvent
        yellowCards :=
          (s.yellowCards.filter (fun e => e.matchId == id)).map projEvent
        redCards :=
          (s.redCards.filter (fun e => e.matchId == id)).map projEvent } := by
  unfold getMatch
  rw [getMatchWith_eq noFailures s id m h]
  rfl

theorem timeFormat_nonempty (v : String) (h : isValidTimeFormat v = true) :
    v ≠ "" := by
  intro hv
  rw [hv] at h
  exact absurd h (by decide)

theorem registerEvent_ok (s : Store) (id : Nat) (k : EventKind)
    (p : EventPayload) (m : Match) (hm : findMatch s id = some m)
    (htne : p.team ≠ "") (hp : p.player ≠ "")
    (hmin : isValidTimeFormat p.minute = true)
    (hteam : p.team = m.homeTeam ∨ p.team = m.awayTeam) :
    registerEvent s id k p =
      .ok (insertEvent s k ⟨nextEventId s k, id, p.team, p.player, p.minute⟩,
           eventMessage k) := by
  have hmne := timeFormat_nonempty p.minute hmin
  have hcond : (p.team != m.homeTeam && p.team != m.awayTeam) = false := by
    rcases hteam with h | h <;> simp [h]
  unfold registerEvent
  rw [if_neg (by simp [htne, hp, hmne]), if_neg (by simp [hmin]), hm]
  simp [hcond]

/-- C1: the shared time-format check accepts exactly the strings `MM:SS`
where `MM` is one or two digits (00-99) and `SS` is exactly two digits in
00-59, and rejects every other string; in particular it accepts "05:00",
"12:59", "0:00", "99:59" and rejects "5:60", "100:00", "5", "". -/
theorem C1_time_format_check :
    (∀ s : String, isValidTimeFormat s = true ↔ SpecTimeFormat s) ∧
    isValidTimeFormat "05:00" = true ∧
    isValidTimeFormat "12:59" = true ∧
    isValidTimeFormat "0:00" = true ∧
    isValidTimeFormat "99:59" = true ∧
    isValidTimeFormat "5:60" = false ∧
    isValidTimeFormat "100:00" = false ∧
    isValidTimeFormat "5" = false ∧
    isValidTimeFormat "" = false :=
  ⟨isValidTimeFormat_iff_spec, by decide, by decide, by decide, by decide,
   by decide, by decide, by decide, by decide⟩

/-- C10: Create never validates or stores the extraTime supplied in its
request payload: the outcome is identical under any substitution of that
field, and a successful Create stores a row with extraTime "00:00" and
returns that row. -/
theorem C10_create_ignores_extra_time :
    (∀ (s : Store) (p : MatchInput) (x : String),
        createMatch s { p with extraTime := x } = createMatch s p) ∧
    (∀ (s : Store) (p : MatchInput) (s2 : Store) (r : Match),
        createMatch s p = .ok (s2, r) →
          r.extraTime = "00:00" ∧ s2.matchRows = s.matchRows ++ [r]) := by
  constructor
  · intro s p x
    rfl
  · intro s p s2 r h
    unfold createMatch at h
    split at h
    · simp at h
    · simp only [Except.ok.injEq, Prod.mk.injEq] at h
      obtain ⟨h1, h2⟩ := h
      subst h1
      subst h2
      exact ⟨rfl, rfl⟩

/-- Witness for C10 at a concrete call whose payload carries the
format-invalid extra-time value "banana". -/
theorem C10_create_ignores_extra_time_witness :
    (Match.mk 1 "Real Madrid" "Barcelona" "2025-05-10" "00:00").extraTime
        = "00:00" ∧
    (Store.mk [Match.mk 1 "Real Madrid" "Barcelona" "2025-05-10" "00:00"]
        [] [] [] 2 1 1 1).matchRows =
      emptyStore.matchRows ++
        [Match.mk 1 "Real Madrid" "Barcelona" "2025-05-10" "00:00"] :=
  C10_create_ignores_extra_time.2 emptyStore
    ⟨"Real Madrid", "Barcelona", "2025-05-10", "banana"⟩ _ _ (by decide)

/-- C3: for every non-empty homeTeam, awayTeam and matchDate, Create
succeeds and a Get on the id it returns yields a match with exactly those
three fields, extraTime "00:00" and all aggregate counts zero; Create and
Update fail with ValidationError whenever any one of the three fields is
empty, regardless of the other two. -/
theorem C3_create_get_roundtrip :
    (∀ (s : Store) (p : MatchInput), wf s = true →
      p.homeTeam ≠ "" → p.awayTeam ≠ "" → p.matchDate ≠ "" →
      ∃ (s2 : Store) (r : Match),
        createMatch s p = .ok (s2, r) ∧
        r.homeTeam = p.homeTeam ∧ r.awayTeam = p.awayTeam ∧
        r.matchDate = p.matchDate ∧ r.extraTime = "00:00" ∧
        getMatch s2 r.id = .ok
          { id := r.id
            homeTeam := p.homeTeam
            awayTeam := p.awayTeam
            matchDate := p.matchDate
            extraTime := "00:00"
            homeGoals := 0
            awayGoals := 0
            homeYellowCardsCount := 0
            awayYellowCardsCount := 0
            homeRedCardsCount := 0
            awayRedCardsCount := 0
            goals := []
            yellowCards := []
            redCards := [] }) ∧
    (∀ (s : Store) (id : Nat) (p : MatchInput),
      p.homeTeam = "" ∨ p.awayTeam = "" ∨ p.matchDate = "" →
      createMatch s p = .error .ValidationError ∧
      updateMatch s id p = .error .ValidationError) := by
  constructor
  · intro s p hwf h1 h2 h3
    simp only [wf, Bool.and_eq_true, List.all_eq_true, decide_eq_true_eq]
      at hwf
    obtain ⟨⟨⟨hwm, hwg⟩, hwy⟩, hwr⟩ := hwf
    refine ⟨_, _, createMatch_ok s p h1 h2 h3, rfl, rfl, rfl, rfl, ?_⟩
    have hfresh : (s.matchRows ++
        [(⟨s.nextMatchId, p.homeTeam, p.awayTeam, p.matchDate,
            "00:00"⟩ : Match)]).find?
          (fun m => m.id == s.nextMatchId) =
        some ⟨s.nextMatchId, p.homeTeam, p.awayTeam, p.matchDate,
          "00:00"⟩ := by
      rw [find?_append_of_none _ _ _ (fun a ha => by
        rw [beq_eq_false_iff_ne]
        exact Nat.ne_of_lt (hwm a ha))]
      exact List.find?_cons_of_pos _ (by simp)
    have hg0 : ∀ t, countEvents s.goals s.nextMatchId t = 0 := fun t => by
      unfold countEvents
      rw [filter_eq_nil_of_false _ _ (fun e he => by
        simp [Nat.ne_of_lt (hwg e he)])]
      rfl
    have hy0 : ∀ t, countEvents s.yellowCards s.nextMatchId t = 0 :=
      fun t => by
        unfold countEvents
        rw [filter_eq_nil_of_false _ _ (fun e he => by
          simp [Nat.ne_of_lt (hwy e he)])]
        rfl
    have hr0 : ∀ t, countEvents s.redCards s.nextMatchId t = 0 :=
      fun t => by
        unfold countEvents
        rw [filter_eq_nil_of_false _ _ (fun e he => by
          simp [Nat.ne_of_lt (hwr e he)])]
        rfl
    have hgn : s.goals.filter (fun e => e.matchId == s.nextMatchId) = [] :=
      filter_eq_nil_of_false _ _ (fun e he => by
        simp [Nat.ne_of_lt (hwg e he)])
    have hyn : s.yellowCards.filter
        (fun e => e.matchId == s.nextMatchId) = [] :=
      filter_eq_nil_of_false _ _ (fun e he => by
        simp [Nat.ne_of_lt (hwy e he)])
    have hrn : s.redCards.filter
        (fun e => e.matchId == s.nextMatchId) = [] :=
      filter_eq_nil_of_false _ _ (fun e he => by
        simp [Nat.ne_of_lt (hwr e he)])
    unfold getMatch getMatchWith findMatch
    simp [noFailures, fetchEvents, hfresh, hg0, hy0, hr0, hgn, hyn, hrn]
  · exact fun s id p h => ⟨createMatch_err s p h, updateMatch_err s id p h⟩

/-- Witness for C3 at a concrete Create on the empty database and a
concrete empty-field rejection. -/
theorem C3_create_get_roundtrip_witness :
    (∃ (s2 : Store) (r : Match),
      createMatch emptyStore ⟨"Real Madrid", "Barcelona", "2025-05-10", ""⟩ =
        .ok (s2, r) ∧
      r.homeTeam = "Real Madrid" ∧ r.awayTeam = "Barcelona" ∧
      r.matchDate = "2025-05-10" ∧ r.extraTime = "00:00" ∧
      getMatch s2 r.id = .ok
        { id := r.id
          homeTeam := "Real Madrid"
          awayTeam := "Barcelona"
          matchDate := "2025-05-10"
          extraTime := "00:00"
          homeGoals := 0
          awayGoals := 0
          homeYellowCardsCount := 0
          awayYellowCardsCount := 0
          homeRedCardsCount := 0
          awayRedCardsCount := 0
          goals := []
          yellowCards := []
          redCards := [] }) ∧
    (createMatch emptyStore ⟨"", "Barcelona", "2025-05-10", ""⟩ =
        .error .ValidationError ∧
      updateMatch emptyStore 5 ⟨"", "Barcelona", "2025-05-10", ""⟩ =
        .error .ValidationError) :=
  ⟨C3_create_get_roundtrip.1 emptyStore
      ⟨"Real Madrid", "Barcelona", "2025-05-10", ""⟩ (by decide) (by decide)
      (by decide) (by decide),
   C3_create_get_roundtrip.2 emptyStore 5
      ⟨"", "Barcelona", "2025-05-10", ""⟩ (Or.inl rfl)⟩

/-- A one-match database used by witnesses: the first sample match of
`init.sql`, before any events. -/
def sampleStore : Store :=
  ⟨[⟨1, "Real Madrid", "Barcelona", "2025-05-10", "00:00"⟩],
   [], [], [], 2, 1, 1, 1⟩

/-- C4: for every existing match and every RegisterEvent call on it whose
fields are non-empty and format-valid, the call fails with
ValidationError exactly when the payload team differs (as an exact,
case-sensitive string) from both stored team names of that match —
whatever else the store contains. -/
theorem registerEvent_found (s : Store) (id : Nat) (k : EventKind)
    (p : EventPayload) (m : Match) (hm : findMatch s id = some m)
    (ht : p.team ≠ "") (hp : p.player ≠ "")
    (hmin : isValidTimeFormat p.minute = true) :
    registerEvent s id k p =
      if (p.team != m.homeTeam && p.team != m.awayTeam) = true then
        .error .ValidationError
      else
        .ok (insertEvent s k
               ⟨nextEventId s k, id, p.team, p.player, p.minute⟩,
             eventMessage k) := by
  have hmne := timeFormat_nonempty p.minute hmin
  unfold registerEvent
  rw [if_neg (by simp [ht, hp, hmne]), if_neg (by simp [hmin]), hm]

theorem C4_register_team_validation (s : Store) (id : Nat) (k : EventKind)
    (p : EventPayload) (m : Match) (hm : findMatch s id = some m)
    (ht : p.team ≠ "") (hp : p.player ≠ "")
    (hmin : isValidTimeFormat p.minute = true) :
    registerEvent s id k p = .error .ValidationError ↔
      (p.team ≠ m.homeTeam ∧ p.team ≠ m.awayTeam) := by
  rw [registerEvent_found s id k p m hm ht hp hmin]
  by_cases hc : p.team ≠ m.homeTeam ∧ p.team ≠ m.awayTeam
  · rw [if_pos (by simp [hc.1, hc.2])]
    simp [hc.1, hc.2]
  · rw [if_neg (by simp only [Bool.and_eq_true, bne_iff_ne]; exact hc)]
    constructor
    · intro h
      simp at h
    · intro h
      exact absurd h hc

/-- Witness for C4 on the sample store: "Sevilla" belongs to neither team
of match 1, so the goal registration is rejected. -/
theorem C4_register_team_validation_witness :
    registerEvent sampleStore 1 EventKind.goal
        ⟨"Sevilla", "Ocampos", "10:00"⟩ = .error .ValidationError ↔
      (("Sevilla" : String) ≠ "Real Madrid" ∧
        ("Sevilla" : String) ≠ "Barcelona") :=
  C4_register_team_validation sampleStore 1 EventKind.goal
    ⟨"Sevilla", "Ocampos", "10:00"⟩
    ⟨1, "Real Madrid", "Barcelona", "2025-05-10", "00:00"⟩
    (by decide) (by decide) (by decide) (by decide)

/-- C5 counterexample: with no match 9999 stored, a payload whose team is
empty makes RegisterEvent fail with ValidationError, not NotFound — the
field validation runs before the match lookup. -/
theorem C5_counterexample :
    findMatch emptyStore 9999 = none ∧
    registerEvent emptyStore 9999 EventKind.goal
        ⟨"", "Messi", "10:00"⟩ = .error .ValidationError ∧
    registerEvent emptyStore 9999 EventKind.goal
        ⟨"", "Messi", "10:00"⟩ ≠ .error .NotFound := by
  refine ⟨by decide, by decide, by decide⟩

/-- C5 as amended: RegisterEvent on a match id that no stored match has
fails with NotFound for every payload that passes the field validation
(non-empty team and player, format-valid minute); payloads that fail the
field validation are rejected with ValidationError before the lookup. -/
theorem C5_register_nonexistent_match (s : Store) (id : Nat)
    (k : EventKind) (p : EventPayload) (hnone : findMatch s id = none)
    (ht : p.team ≠ "") (hp : p.player ≠ "")
    (hmin : isValidTimeFormat p.minute = true) :
    registerEvent s id k p = .error .NotFound := by
  have hmne := timeFormat_nonempty p.minute hmin
  unfold registerEvent
  rw [if_neg (by simp [ht, hp, hmne]), if_neg (by simp [hmin]), hnone]

/-- Witness for the amended C5: a field-valid goal registration against
id 9999 of the empty database. -/
theorem C5_register_nonexistent_match_witness :
    registerEvent emptyStore 9999 EventKind.goal
        ⟨"Real Madrid", "Vinicius Jr.", "12:34"⟩ = .error .NotFound :=
  C5_register_nonexistent_match emptyStore 9999 EventKind.goal
    ⟨"Real Madrid", "Vinicius Jr.", "12:34"⟩
    (by decide) (by decide) (by decide) (by decide)

/-- C8: Update with non-empty fields and Delete on an id no stored match
has both report success — Update answers with the given id echoed back,
Delete is total (204) — and the store is unchanged. -/
theorem C8_update_delete_nonexistent (s : Store) (id : Nat)
    (p : MatchInput) (hno : ∀ m ∈ s.matchRows, m.id ≠ id)
    (h1 : p.homeTeam ≠ "") (h2 : p.awayTeam ≠ "") (h3 : p.matchDate ≠ "") :
    updateMatch s id p =
      .ok (s, ⟨id, p.homeTeam, p.awayTeam, p.matchDate, p.extraTime⟩) ∧
    deleteMatch s id = s := by
  constructor
  · unfold updateMatch
    rw [if_neg (by simp [h1, h2, h3])]
    rw [map_eq_self_of_id _ _ (fun m hmem => by
      unfold applyUpdate
      rw [if_neg (by simp [hno m hmem])])]
  · unfold deleteMatch
    rw [filter_eq_self_of_true _ _ (fun m hmem => by simp [hno m hmem])]

/-- Witness for C8: updating and deleting the absent id 9999 of the
sample store leaves it intact and reports success. -/
theorem C8_update_delete_nonexistent_witness :
    updateMatch sampleStore 9999
        ⟨"Sevilla", "Villarreal", "2025-06-15", ""⟩ =
      .ok (sampleStore,
           ⟨9999, "Sevilla", "Villarreal", "2025-06-15", ""⟩) ∧
    deleteMatch sampleStore 9999 = sampleStore :=
  C8_update_delete_nonexistent sampleStore 9999
    ⟨"Sevilla", "Villarreal", "2025-06-15", ""⟩
    (by decide) (by decide) (by decide) (by decide)

/-- C7: a successful Update rewrites only homeTeam, awayTeam and
matchDate of the rows whose id matches the given one; every other row is
untouched, no row's id or extra-time field changes, and the three event
tables are left exactly as they were. -/
theorem C7_update_frame (s : Store) (id : Nat) (p : MatchInput)
    (s2 : Store) (r : Match) (h : updateMatch s id p = .ok (s2, r)) :
    s2.goals = s.goals ∧ s2.yellowCards = s.yellowCards ∧
    s2.redCards = s.redCards ∧ r.id = id ∧
    s2.matchRows.length = s.matchRows.length ∧
    (∀ (i : Nat) (m : Match), s.matchRows[i]? = some m →
      (m.id ≠ id → s2.matchRows[i]? = some m) ∧
      (m.id = id → s2.matchRows[i]? = some
        { m with homeTeam := p.homeTeam
                 awayTeam := p.awayTeam
                 matchDate := p.matchDate })) := by
  unfold updateMatch at h
  split at h
  · simp at h
  · simp only [Except.ok.injEq, Prod.mk.injEq] at h
    obtain ⟨hs2, hr⟩ := h
    subst hs2
    subst hr
    refine ⟨rfl, rfl, rfl, rfl, by simp, ?_⟩
    intro i m hmi
    constructor
    · intro hne
      simp only [List.getElem?_map, hmi, Option.map_some']
      unfold applyUpdate
      rw [if_neg (by simp [hne])]
    · intro heq
      simp only [List.getElem?_map, hmi, Option.map_some']
      unfold applyUpdate
      rw [if_pos (by simp [heq])]

/-- Witness for C7: a concrete Update of the sample store's match 1,
checked on the event tables, the echoed id, the length, and the updated
row itself. -/
theorem C7_update_frame_witness :
    (Store.mk [Match.mk 1 "Atletico Madrid" "Valencia" "2025-06-01"
        "00:00"] [] [] [] 2 1 1 1).goals = sampleStore.goals ∧
    (Store.mk [Match.mk 1 "Atletico Madrid" "Valencia" "2025-06-01"
        "00:00"] [] [] [] 2 1 1 1).matchRows.length =
      sampleStore.matchRows.length ∧
    (Store.mk [Match.mk 1 "Atletico Madrid" "Valencia" "2025-06-01"
        "00:00"] [] [] [] 2 1 1 1).matchRows[0]? =
      some (Match.mk 1 "Atletico Madrid" "Valencia" "2025-06-01"
        "00:00") := by
  have h := C7_update_frame sampleStore 1
    ⟨"Atletico Madrid", "Valencia", "2025-06-01", ""⟩
    (Store.mk [Match.mk 1 "Atletico Madrid" "Valencia" "2025-06-01"
      "00:00"] [] [] [] 2 1 1 1)
    (Match.mk 1 "Atletico Madrid" "Valencia" "2025-06-01" "")
    (by decide)
  exact ⟨h.1, h.2.2.2.2.1,
    (h.2.2.2.2.2 0 (Match.mk 1 "Real Madrid" "Barcelona" "2025-05-10"
      "00:00") (by decide)).2 rfl⟩

/-- C9: for every existing match, Get succeeds whatever subset of its
three event-list queries fails: each failed kind yields the empty list,
each successful kind yields the usual list, and no other field of the
response depends on those query outcomes. -/
theorem C9_event_list_failure_tolerated (s : Store) (id : Nat) (m : Match)
    (hm : findMatch s id = some m) (q : EventQueryFailures) :
    ∃ (fmd fmd0 : FullMatchData),
      getMatchWith q s id = .ok fmd ∧
      getMatch s id = .ok fmd0 ∧
      fmd.id = fmd0.id ∧ fmd.homeTeam = fmd0.homeTeam ∧
      fmd.awayTeam = fmd0.awayTeam ∧ fmd.matchDate = fmd0.matchDate ∧
      fmd.extraTime = fmd0.extraTime ∧
      fmd.homeGoals = fmd0.homeGoals ∧ fmd.awayGoals = fmd0.awayGoals ∧
      fmd.homeYellowCardsCount = fmd0.homeYellowCardsCount ∧
      fmd.awayYellowCardsCount = fmd0.awayYellowCardsCount ∧
      fmd.homeRedCardsCount = fmd0.homeRedCardsCount ∧
      fmd.awayRedCardsCount = fmd0.awayRedCardsCount ∧
      fmd.goals = (if q.goalsFail then [] else fmd0.goals) ∧
      fmd.yellowCards = (if q.yellowFail then [] else fmd0.yellowCards) ∧
      fmd.redCards = (if q.redFail then [] else fmd0.redCards) := by
  refine ⟨_, _, getMatchWith_eq q s id m hm, getMatch_eq s id m hm,
    rfl, rfl, rfl, rfl, rfl, rfl, rfl, rfl, rfl, rfl, rfl, ?_, ?_, ?_⟩
  · unfold fetchEvents
    rfl
  · unfold fetchEvents
    rfl
  · unfold fetchEvents
    rfl

/-- Witness for C9: Get on the sample store's match 1 with the goals and
red-cards queries failing. -/
theorem C9_event_list_failure_tolerated_witness :
    ∃ (fmd fmd0 : FullMatchData),
      getMatchWith ⟨true, false, true⟩ sampleStore 1 = .ok fmd ∧
      getMatch sampleStore 1 = .ok fmd0 ∧
      fmd.id = fmd0.id ∧ fmd.homeTeam = fmd0.homeTeam ∧
      fmd.awayTeam = fmd0.awayTeam ∧ fmd.matchDate = fmd0.matchDate ∧
      fmd.extraTime = fmd0.extraTime ∧
      fmd.homeGoals = fmd0.homeGoals ∧ fmd.awayGoals = fmd0.awayGoals ∧
      fmd.homeYellowCardsCount = fmd0.homeYellowCardsCount ∧
      fmd.awayYellowCardsCount = fmd0.awayYellowCardsCount ∧
      fmd.homeRedCardsCount = fmd0.homeRedCardsCount ∧
      fmd.awayRedCardsCount = fmd0.awayRedCardsCount ∧
      fmd.goals = (if (true : Bool) then [] else fmd0.goals) ∧
      fmd.yellowCards = (if (false : Bool) then [] else fmd0.yellowCards) ∧
      fmd.redCards = (if (true : Bool) then [] else fmd0.redCards) :=
  C9_event_list_failure_tolerated sampleStore 1
    ⟨1, "Real Madrid", "Barcelona", "2025-05-10", "00:00"⟩ (by decide)
    ⟨true, false, true⟩

/-- A database with one match and one yellow card for its home team. -/
def exStore : Store :=
  ⟨[⟨1, "Real Madrid", "Barcelona", "2025-05-10", "00:00"⟩],
   [], [⟨1, 1, "Real Madrid", "Carvajal", "35:00"⟩], [], 2, 1, 2, 1⟩

/-- C6 counterexample: on `exStore`, List's single entry carries
homeYellowCardsCount = 1, computed from the yellow-card ledger — so List
returns the full six per-team counts, not goal aggregates only. -/
theorem C6_counterexample :
    getMatches exStore =
      [{ id := 1
         homeTeam := "Real Madrid"
         awayTeam := "Barcelona"
         matchDate := "2025-05-10"
         extraTime := "00:00"
         homeGoals := 0
         awayGoals := 0
         homeYellowCardsCount := 1
         awayYellowCardsCount := 0
         homeRedCardsCount := 0
         awayRedCardsCount := 0
         goals := []
         yellowCards := []
         redCards := [] }] := by decide

/-- C6 as amended: List enriches each match with the same six per-team
goal, yellow-card and red-card counts that Get computes for it; it
differs from Get only in not attaching the three event lists. -/
theorem C6_list_exposes_all_six_counts (s : Store) (m : Match)
    (hu : uniqueIds s.matchRows = true) (hm : m ∈ s.matchRows)
    (fmd : FullMatchData) (hget : getMatch s m.id = .ok fmd) :
    enrichMatch s m ∈ getMatches s ∧
    (enrichMatch s m).homeGoals = fmd.homeGoals ∧
    (enrichMatch s m).awayGoals = fmd.awayGoals ∧
    (enrichMatch s m).homeYellowCardsCount = fmd.homeYellowCardsCount ∧
    (enrichMatch s m).awayYellowCardsCount = fmd.awayYellowCardsCount ∧
    (enrichMatch s m).homeRedCardsCount = fmd.homeRedCardsCount ∧
    (enrichMatch s m).awayRedCardsCount = fmd.awayRedCardsCount ∧
    (enrichMatch s m).goals = [] ∧
    (enrichMatch s m).yellowCards = [] ∧
    (enrichMatch s m).redCards = [] := by
  have hfind : findMatch s m.id = some m :=
    find?_id_of_uniqueIds s.matchRows m hu hm
  rw [getMatch_eq s m.id m hfind] at hget
  simp only [Except.ok.injEq] at hget
  subst hget
  exact ⟨List.mem_map_of_mem _ hm, rfl, rfl, rfl, rfl, rfl, rfl, rfl,
    rfl, rfl⟩

/-- Witness for the amended C6 on `exStore`. -/
theorem C6_list_exposes_all_six_counts_witness :
    enrichMatch exStore
        ⟨1, "Real Madrid", "Barcelona", "2025-05-10", "00:00"⟩ ∈
      getMatches exStore ∧
    (enrichMatch exStore
        ⟨1, "Real Madrid", "Barcelona", "2025-05-10", "00:00"⟩).homeGoals =
      (FullMatchData.mk 1 "Real Madrid" "Barcelona" "2025-05-10" "00:00"
        0 0 1 0 0 0 []
        [MatchEvent.mk 1 "Real Madrid" "Carvajal" "35:00"] []).homeGoals ∧
    (enrichMatch exStore
        ⟨1, "Real Madrid", "Barcelona", "2025-05-10",
          "00:00"⟩).homeYellowCardsCount =
      FullMatchData.homeYellowCardsCount
        (FullMatchData.mk 1 "Real Madrid" "Barcelona" "2025-05-10" "00:00"
          0 0 1 0 0 0 []
          [MatchEvent.mk 1 "Real Madrid" "Carvajal" "35:00"] []) := by
  have h := C6_list_exposes_all_six_counts exStore
    ⟨1, "Real Madrid", "Barcelona", "2025-05-10", "00:00"⟩
    (by decide) (by decide)
    (FullMatchData.mk 1 "Real Madrid" "Barcelona" "2025-05-10" "00:00"
      0 0 1 0 0 0 []
      [MatchEvent.mk 1 "Real Madrid" "Carvajal" "35:00"] [])
    (by decide)
  exact ⟨h.1, h.2.1, h.2.2.2.1⟩

/-- C2: every aggregate count Get returns is the number of events of that
kind with that match id and team name; and after registering two goals
for the home team and one for the away team of a match with no previous
goals, Get reports homeGoals = 2, awayGoals = 1 and a goals list holding
exactly those three entries with their team, player and minute. -/
theorem C2_aggregates_count_events :
    (∀ (t : Store) (i : Nat) (fmd : FullMatchData),
      getMatch t i = .ok fmd →
        fmd.homeGoals = countEvents t.goals i fmd.homeTeam ∧
        fmd.awayGoals = countEvents t.goals i fmd.awayTeam ∧
        fmd.homeYellowCardsCount = countEvents t.yellowCards i fmd.homeTeam ∧
        fmd.awayYellowCardsCount = countEvents t.yellowCards i fmd.awayTeam ∧
        fmd.homeRedCardsCount = countEvents t.redCards i fmd.homeTeam ∧
        fmd.awayRedCardsCount = countEvents t.redCards i fmd.awayTeam) ∧
    (∀ (s : Store) (mid : Nat) (m : Match) (p1 p2 p3 : EventPayload),
      findMatch s mid = some m →
      m.homeTeam ≠ m.awayTeam → m.homeTeam ≠ "" → m.awayTeam ≠ "" →
      s.goals.filter (fun e => e.matchId == mid) = [] →
      p1.team = m.homeTeam → p2.team = m.homeTeam → p3.team = m.awayTeam →
      p1.player ≠ "" → p2.player ≠ "" → p3.player ≠ "" →
      isValidTimeFormat p1.minute = true →
      isValidTimeFormat p2.minute = true →
      isValidTimeFormat p3.minute = true →
      ∃ (s1 s2 s3 : Store) (m1 m2 m3 : String) (fmd : FullMatchData),
        registerEvent s mid .goal p1 = .ok (s1, m1) ∧
        registerEvent s1 mid .goal p2 = .ok (s2, m2) ∧
        registerEvent s2 mid .goal p3 = .ok (s3, m3) ∧
        getMatch s3 mid = .ok fmd ∧
        fmd.homeGoals = 2 ∧ fmd.awayGoals = 1 ∧
        fmd.goals.map (fun e => (e.team, e.player, e.minute)) =
          [(p1.team, p1.player, p1.minute),
           (p2.team, p2.player, p2.minute),
           (p3.team, p3.player, p3.minute)]) := by
  constructor
  · intro t i fmd hget
    unfold getMatch getMatchWith at hget
    cases hfind : findMatch t i with
    | none =>
        rw [hfind] at hget
        simp at hget
    | some mm =>
        rw [hfind] at hget
        simp only [Except.ok.injEq] at hget
        subst hget
        exact ⟨rfl, rfl, rfl, rfl, rfl, rfl⟩
  · intro s mid m p1 p2 p3 hm hne hh ha hgnil ht1 ht2 ht3 hp1 hp2 hp3
      hmin1 hmin2 hmin3
    have ht1ne : p1.team ≠ "" := by rw [ht1]; exact hh
    have ht2ne : p2.team ≠ "" := by rw [ht2]; exact hh
    have ht3ne : p3.team ≠ "" := by rw [ht3]; exact ha
    have hmid : (mid == mid) = true := by simp
    have hb1h : (p1.team == m.homeTeam) = true := by simp [ht1]
    have hb2h : (p2.team == m.homeTeam) = true := by simp [ht2]
    have hb3h : (p3.team == m.homeTeam) = false := by
      rw [ht3, beq_eq_false_iff_ne]
      exact Ne.symm hne
    have hb1a : (p1.team == m.awayTeam) = false := by
      rw [ht1, beq_eq_false_iff_ne]
      exact hne
    have hb2a : (p2.team == m.awayTeam) = false := by
      rw [ht2, beq_eq_false_iff_ne]
      exact hne
    have hb3a : (p3.team == m.awayTeam) = true := by simp [ht3]
    have hsub : ∀ tm, s.goals.filter
        (fun e => e.matchId == mid && e.team == tm) = [] := fun tm =>
      filter_sub_nil _ _ _ hgnil (fun a ha2 => by
        simp only [Bool.and_eq_true] at ha2
        exact ha2.1)
    refine ⟨_, _, _, _, _, _, _,
      registerEvent_ok s mid .goal p1 m hm ht1ne hp1 hmin1 (Or.inl ht1),
      registerEvent_ok _ mid .goal p2 m hm ht2ne hp2 hmin2 (Or.inl ht2),
      registerEvent_ok _ mid .goal p3 m hm ht3ne hp3 hmin3 (Or.inr ht3),
      getMatch_eq _ mid m hm, ?_, ?_, ?_⟩
    · simp [countEvents, insertEvent, List.filter_append, hsub,
        List.filter_cons, hmid, hb1h, hb2h, hb3h]
    · simp [countEvents, insertEvent, List.filter_append, hsub,
        List.filter_cons, hmid, hb1a, hb2a, hb3a]
    · simp [insertEvent, List.filter_append, hgnil, List.filter_cons,
        hmid, projEvent]

/-- Witness for C2: two Real Madrid goals and one Barcelona goal
registered on the sample store's match 1. -/
theorem C2_aggregates_count_events_witness :
    ((FullMatchData.mk 1 "Real Madrid" "Barcelona" "2025-05-10" "00:00"
        0 0 0 0 0 0 [] [] []).homeGoals =
      countEvents sampleStore.goals 1 "Real Madrid") ∧
    (∃ (s1 s2 s3 : Store) (m1 m2 m3 : String) (fmd : FullMatchData),
      registerEvent sampleStore 1 .goal
          ⟨"Real Madrid", "Vinicius Jr.", "12:34"⟩ = .ok (s1, m1) ∧
      registerEvent s1 1 .goal
          ⟨"Real Madrid", "Bellingham", "50:07"⟩ = .ok (s2, m2) ∧
      registerEvent s2 1 .goal
          ⟨"Barcelona", "Lewandowski", "21:12"⟩ = .ok (s3, m3) ∧
      getMatch s3 1 = .ok fmd ∧
      fmd.homeGoals = 2 ∧ fmd.awayGoals = 1 ∧
      fmd.goals.map (fun e => (e.team, e.player, e.minute)) =
        [("Real Madrid", "Vinicius Jr.", "12:34"),
         ("Real Madrid", "Bellingham", "50:07"),
         ("Barcelona", "Lewandowski", "21:12")]) := by
  constructor
  · exact (C2_aggregates_count_events.1 sampleStore 1
      (FullMatchData.mk 1 "Real Madrid" "Barcelona" "2025-05-10" "00:00"
        0 0 0 0 0 0 [] [] []) (by decide)).1
  · exact C2_aggregates_count_events.2 sampleStore 1
      ⟨1, "Real Madrid", "Barcelona", "2025-05-10", "00:00"⟩
      ⟨"Real Madrid", "Vinicius Jr.", "12:34"⟩
      ⟨"Real Madrid", "Bellingham", "50:07"⟩
      ⟨"Barcelona", "Lewandowski", "21:12"⟩
      (by decide) (by decide) (by decide) (by decide) (by decide)
      (by decide) (by decide) (by decide) (by decide) (by decide)
      (by decide) (by decide) (by decide) (by decide)

end LaLiga
